import Mathlib

/-!
# Verification of the order/shipment/billing reference application

Shallow embedding of the shipment workflow (`app/shipment/workflows.go`),
the billing activities and `Charge` workflow (`app/billing`), the shipment
HTTP API handlers (`app/shipment/api.go`) and the order fulfillment
partition, together with theorems settling the specification claims.
-/

namespace OrdersApp

/-! ## Shipment data model (`app/shipment/workflows.go`) -/

/-- `ShipmentStatus` from `workflows.go`: `Booked`, `Dispatched`, `Delivered`
(Go `iota` values 0, 1, 2; the Go zero value of the field is `booked`). -/
inductive ShipmentStatus
  | booked
  | dispatched
  | delivered
deriving DecidableEq, Repr

/-- The numeric (`iota`) value of a `ShipmentStatus`, giving the ordering
booked < dispatched < delivered. -/
def statusNat : ShipmentStatus → Nat
  | .booked => 0
  | .dispatched => 1
  | .delivered => 2

/-- One iteration of `shipmentImpl.statusUpdater`: on receiving a
`ShipmentUpdateSignal` the handler executes `s.status = signal.Status`,
an unconditional overwrite of the current status. -/
def statusUpdaterStep (_current signal : ShipmentStatus) : ShipmentStatus :=
  signal

/-- The status field after `statusUpdater` has processed a list of signals
in delivery order, starting from `init`. -/
def statusUpdaterRun (init : ShipmentStatus) (signals : List ShipmentStatus) : ShipmentStatus :=
  signals.foldl statusUpdaterStep init

/-- Every intermediate value of the status field while `statusUpdater`
processes `signals` (the value before each signal, and the final value):
what a query interleaved at each suspension point would observe. -/
def statusHistory (st : ShipmentStatus) : List ShipmentStatus → List ShipmentStatus
  | [] => [st]
  | signal :: rest => st :: statusHistory (statusUpdaterStep st signal) rest

/-- `ShipmentResult` from `workflows.go`: the workflow declares
`var result ShipmentResult` and never assigns `CourierReference`, so a
successful run returns the zero value (empty string). -/
structure ShipmentResult where
  courierReference : String
deriving DecidableEq, Repr

/-- The four side effects the shipment workflow executes as activities, in
the order they appear in `shipmentImpl.run`. -/
inductive ShipmentEvent
  | book
  | bookedNotif
  | dispatchedNotif
  | deliveredNotif
deriving DecidableEq, Repr

/-- Outcome of a run of the shipment workflow: normal completion, an
activity error propagated out of `run`, or the main sequence suspended
forever at a `waitForStatus` point whose predicate never became true. -/
inductive RunOutcome
  | completed (r : ShipmentResult)
  | failed (e : String)
  | blockedAwait (waitingFor : ShipmentStatus)
deriving DecidableEq, Repr

/-- Whether a `RunOutcome` is a normal completion. -/
def RunOutcome.isCompleted : RunOutcome → Bool
  | .completed _ => true
  | _ => false

/-- `shipmentImpl.waitForStatus`: `workflow.Await(ctx, func() bool { return
s.status == status })`. The predicate tests equality with `target`. The
`statusUpdater` task assigns each pending signal to the status field, one
at a time, and the `Await` predicate is re-evaluated after each
assignment. Returns the status field and the remaining signal queue once
the predicate holds, or `none` if the queue is exhausted first (the
workflow stays suspended at this wait point). -/
def waitForStatus (target st : ShipmentStatus) (signals : List ShipmentStatus) :
    Option (ShipmentStatus × List ShipmentStatus) :=
  if st = target then
    some (st, signals)
  else
    match signals with
    | [] => none
    | signal :: rest => waitForStatus target (statusUpdaterStep st signal) rest

/-- `shipmentImpl.run`: book the shipment (error propagated), fire the
booked notification (error propagated), wait until the status field equals
`dispatched`, fire the dispatched notification, wait until the status
field equals `delivered`, fire the delivered notification, and return the
(zero-valued) `ShipmentResult`. Each activity outcome is a parameter; the
carrier signals are consumed at the wait points in delivery order. The
status field starts at its Go zero value, `booked`. -/
def shipmentRun (bookRes bookedRes dispatchedRes deliveredRes : Except String Unit)
    (signals : List ShipmentStatus) : List ShipmentEvent × RunOutcome :=
  match bookRes with
  | .error e => ([.book], .failed e)
  | .ok _ =>
    match bookedRes with
    | .error e => ([.book, .bookedNotif], .failed e)
    | .ok _ =>
      match waitForStatus .dispatched .booked signals with
      | none => ([.book, .bookedNotif], .blockedAwait .dispatched)
      | some (st1, rest1) =>
        match dispatchedRes with
        | .error e => ([.book, .bookedNotif, .dispatchedNotif], .failed e)
        | .ok _ =>
          match waitForStatus .delivered st1 rest1 with
          | none => ([.book, .bookedNotif, .dispatchedNotif], .blockedAwait .delivered)
          | some _ =>
            match deliveredRes with
            | .error e =>
              ([.book, .bookedNotif, .dispatchedNotif, .deliveredNotif], .failed e)
            | .ok _ =>
              ([.book, .bookedNotif, .dispatchedNotif, .deliveredNotif],
                .completed { courierReference := "" })

/-! ## Billing (`app/billing`: `GenerateInvoice`, `ChargeCustomer`, `Charge`) -/

/-- Two's-complement wrap-around of Go `int32` arithmetic: normalizes an
integer into `[-2^31, 2^31)`. -/
def wrap32 (x : Int) : Int :=
  (x + 2147483648) % 4294967296 - 2147483648

/-- An item being ordered (`Item{SKU string, Quantity int32}`; the billing,
shipment and order packages declare identical copies of this struct). -/
structure Item where
  sku : String
  quantity : Int
deriving DecidableEq, Repr

/-- The per-item amounts produced by the pricing collaborator for one loop
iteration of `GenerateInvoice`: `calculateCosts` returns `(cost, tax)` and
`calculateShippingCost` returns the shipping cost (all Go `int32`). -/
structure Pricing where
  cost : Int
  tax : Int
  shipping : Int
deriving DecidableEq, Repr

/-- `GenerateInvoiceInput{CustomerID, Reference, Items}`. -/
structure GenerateInvoiceInput where
  customerID : String
  reference : String
  items : List Item
deriving DecidableEq, Repr

/-- `GenerateInvoiceResult{InvoiceReference, SubTotal, Tax, Shipping, Total}`. -/
structure GenerateInvoiceResult where
  invoiceReference : String
  subTotal : Int
  tax : Int
  shipping : Int
  total : Int
deriving DecidableEq, Repr

/-- One iteration of the pricing loop in `Activities.GenerateInvoice`:
`result.SubTotal += cost; result.Tax += tax; result.Shipping +=
calculateShippingCost(item); result.Total += result.SubTotal + result.Tax
+ result.Shipping` — the `Total` increment reads the already-updated
running fields. All additions are `int32` additions. -/
def invoiceStep (r : GenerateInvoiceResult) (p : Pricing) : GenerateInvoiceResult :=
  let sub := wrap32 (r.subTotal + p.cost)
  let tx := wrap32 (r.tax + p.tax)
  let sh := wrap32 (r.shipping + p.shipping)
  { invoiceReference := r.invoiceReference
    subTotal := sub
    tax := tx
    shipping := sh
    total := wrap32 (r.total + wrap32 (wrap32 (sub + tx) + sh)) }

/-- The sequence of intermediate `GenerateInvoiceResult` values after each
iteration of the pricing loop, starting from accumulator `r`. -/
def invoiceStates (r : GenerateInvoiceResult) : List Pricing → List GenerateInvoiceResult
  | [] => []
  | p :: ps => invoiceStep r p :: invoiceStates (invoiceStep r p) ps

/-- The contribution of one loop iteration to `Total`: the values of the
running `SubTotal`, `Tax` and `Shipping` fields at that step, summed. -/
def lineOf (r : GenerateInvoiceResult) : Int :=
  r.subTotal + r.tax + r.shipping

/-- The accumulator `var result GenerateInvoiceResult` before the pricing
loop: `InvoiceReference` set from the input, numeric fields zero. -/
def initialInvoice (ref : String) : GenerateInvoiceResult :=
  { invoiceReference := ref, subTotal := 0, tax := 0, shipping := 0, total := 0 }

/-- The per-item priced amounts for an order of `n` items: the pricing
collaborator (`calculateCosts` / `calculateShippingCost`, opaque to the
core) produces one `Pricing` per loop iteration, indexed by position. -/
def pricedItems (price : Nat → Pricing) (n : Nat) : List Pricing :=
  (List.range n).map price

/-- `Activities.GenerateInvoice`: reject an empty `CustomerID`, an empty
`Reference`, or an empty item list with an error; otherwise run the
pricing loop over the items and return the accumulated result. -/
def GenerateInvoice (price : Nat → Pricing) (input : GenerateInvoiceInput) :
    Except String GenerateInvoiceResult :=
  if input.customerID = "" then
    .error "CustomerID is required"
  else if input.reference = "" then
    .error "OrderReference is required"
  else if input.items.length = 0 then
    .error "invoice must have items"
  else
    .ok ((pricedItems price input.items.length).foldl invoiceStep
      (initialInvoice input.reference))

/-- Whether an `Except` computation succeeded. -/
def exceptOk {ε α : Type} : Except ε α → Bool
  | .ok _ => true
  | .error _ => false

/-- `fraudcheck.FraudCheckInput{CustomerID, Charge}`. -/
structure FraudCheckInput where
  customerID : String
  charge : Int
deriving DecidableEq, Repr

/-- `fraudcheck.FraudCheckResult{Declined}`. -/
structure FraudCheckResult where
  declined : Bool
deriving DecidableEq, Repr

/-- `ChargeCustomerInput{CustomerID, Reference, Charge}`. -/
structure ChargeCustomerInput where
  customerID : String
  reference : String
  charge : Int
deriving DecidableEq, Repr

/-- `ChargeCustomerResult{Success, AuthCode}`. -/
structure ChargeCustomerResult where
  success : Bool
  authCode : String
deriving DecidableEq, Repr

/-- `Activities.fraudCheck`: with no configured `FraudCheckURL` the check
is skipped and reports not-declined; otherwise the remote fraud-check
collaborator is invoked with `{CustomerID: input.CustomerID, Charge:
input.Charge}` (the HTTP transport is abstracted as the `remote`
function, which may fail). -/
def fraudCheck (fraudCheckURL : String)
    (remote : FraudCheckInput → Except String FraudCheckResult)
    (input : ChargeCustomerInput) : Except String FraudCheckResult :=
  if fraudCheckURL = "" then
    .ok { declined := false }
  else
    remote { customerID := input.customerID, charge := input.charge }

/-- `Activities.ChargeCustomer`: run the fraud check (errors propagated),
then return `Success = !Declined` and the fixed `AuthCode = "1234"`. -/
def ChargeCustomer (fraudCheckURL : String)
    (remote : FraudCheckInput → Except String FraudCheckResult)
    (input : ChargeCustomerInput) : Except String ChargeCustomerResult :=
  match fraudCheck fraudCheckURL remote input with
  | .error e => .error e
  | .ok check => .ok { success := !check.declined, authCode := "1234" }

/-- `ChargeInput{CustomerID, Reference, Items}` for the `Charge` workflow. -/
structure ChargeInput where
  customerID : String
  reference : String
  items : List Item
deriving DecidableEq, Repr

/-- `ChargeResult`: the invoice amounts plus the charge outcome. -/
structure ChargeResult where
  invoiceReference : String
  subTotal : Int
  tax : Int
  shipping : Int
  total : Int
  success : Bool
  authCode : String
deriving DecidableEq, Repr

/-- The `Charge` workflow: `GenerateInvoice` over the input items (errors
propagated), then `ChargeCustomer` with `{CustomerID, Reference:
invoice.InvoiceReference, Charge: invoice.Total}` (errors propagated),
then assemble the `ChargeResult`. -/
def Charge (price : Nat → Pricing) (fraudCheckURL : String)
    (remote : FraudCheckInput → Except String FraudCheckResult)
    (input : ChargeInput) : Except String ChargeResult :=
  match GenerateInvoice price
      { customerID := input.customerID, reference := input.reference,
        items := input.items } with
  | .error e => .error e
  | .ok invoice =>
    match ChargeCustomer fraudCheckURL remote
        { customerID := input.customerID, reference := invoice.invoiceReference,
          charge := invoice.total } with
    | .error e => .error e
    | .ok charge =>
      .ok { invoiceReference := invoice.invoiceReference
            subTotal := invoice.subTotal
            tax := invoice.tax
            shipping := invoice.shipping
            total := invoice.total
            success := charge.success
            authCode := charge.authCode }

/-! ## Order fulfillment (`app/order`) -/

/-- `Fulfillment{Location, Items}`. -/
structure Fulfillment where
  location : String
  items : List Item
deriving DecidableEq, Repr

/-- `FulfillOrderResult{Fulfillments}` (Go zero value: empty list). -/
structure FulfillOrderResult where
  fulfillments : List Fulfillment := []
deriving DecidableEq, Repr

/-- Modelled from the spec: the `FulfillOrder` allocation activity
(`app/order/activities.go` is not under `src/`; only its tests are).
Per the spec it partitions the items into fulfillments by an external
allocation rule, totally and without overlap, with zero items yielding
zero fulfillments; per `TestFulfillOrderOneItem` and
`TestFulfillOrderTwoItems` the rule assigns the first item to
"Warehouse A" and the remaining items to "Warehouse B". -/
def FulfillOrder : List Item → FulfillOrderResult
  | [] => { fulfillments := [] }
  | [x] => { fulfillments := [{ location := "Warehouse A", items := [x] }] }
  | x :: y :: rest =>
    { fulfillments :=
        [{ location := "Warehouse A", items := [x] },
         { location := "Warehouse B", items := y :: rest }] }

/-! ## Shipment HTTP API (`app/shipment/api.go`) -/

/-- An error returned by the Temporal client: either
`serviceerror.NotFound` (the target workflow does not exist) or any other
failure, carrying a message. -/
inductive TemporalError
  | notFound
  | generic (msg : String)
deriving DecidableEq, Repr

/-- `ShipmentStatus` as serialized by the API (`ID`, `Status`, `UpdatedAt`,
`Items`). -/
structure ShipmentStatusView where
  id : String
  status : String
  updatedAt : Nat
  items : List Item
deriving DecidableEq, Repr

/-- `ShipmentCarrierUpdateSignal{Status}` as decoded from the request body. -/
structure ShipmentCarrierUpdateSignal where
  status : String
deriving DecidableEq, Repr

/-- `ShipmentIDFromWorkflowID`: trim the `"Shipment:"` workflow-ID
namespace, leaving other strings unchanged (`strings.TrimPrefix`). -/
def ShipmentIDFromWorkflowID (id : String) : String :=
  if id.startsWith "Shipment:" then id.drop 9 else id

/-- `handlers.handleGetShipment`, modelled as the HTTP status code written
for each combination of collaborator outcomes: `QueryWorkflow` failing
with `NotFound` gives 404, any other query failure gives 500, a failure
decoding the query result (`q.Get`) gives 500, an encoding failure gives
500, and otherwise the response is a 200 with the status JSON. -/
def handleGetShipment (query : Except TemporalError Unit)
    (getRes : Except String ShipmentStatusView) (encodeOk : Bool) : Nat :=
  match query with
  | .error .notFound => 404
  | .error (.generic _) => 500
  | .ok _ =>
    match getRes with
    | .error _ => 500
    | .ok _ => if encodeOk then 200 else 500

/-- `handlers.handleUpdateShipmentStatus`, modelled as the HTTP status
code: a body that fails to decode gives 400; `SignalWorkflow` failing
with `NotFound` gives 404; any other signal failure gives 400
(`http.StatusBadRequest` in the source); success writes no explicit
status, i.e. 200. -/
def handleUpdateShipmentStatus (decodeRes : Except String ShipmentCarrierUpdateSignal)
    (signalRes : Except TemporalError Unit) : Nat :=
  match decodeRes with
  | .error _ => 400
  | .ok _ =>
    match signalRes with
    | .error .notFound => 404
    | .error (.generic _) => 400
    | .ok _ => 200

/-- One workflow execution as returned by `ListWorkflow`: its workflow ID
and its `ShipmentStatus` search attribute — `none` when the indexed field
is absent, `some (.error e)` when `FromPayload` fails to decode it, and
`some (.ok s)` when it decodes to status `s`. -/
structure ExecutionEntry where
  workflowID : String
  searchAttr : Option (Except String String)
deriving Repr

/-- `getStatusFromSearchAttributes`: decode the `ShipmentStatus` indexed
field if present (propagating decode errors); report `"unknown"` when the
field is absent. -/
def getStatusFromSearchAttributes (sa : Option (Except String String)) :
    Except String String :=
  match sa with
  | some (.ok s) => .ok s
  | some (.error e) => .error e
  | none => .ok "unknown"

/-- `ListShipmentEntry{ID, Status}`. -/
structure ListShipmentEntry where
  id : String
  status : String
deriving DecidableEq, Repr

/-- The body of the per-execution loop in `handleListShipments`: derive
the status via `getStatusFromSearchAttributes`, substituting `"unknown"`
if that fails, and pair it with the shipment ID. -/
def listShipmentEntryOf (e : ExecutionEntry) : ListShipmentEntry :=
  { id := ShipmentIDFromWorkflowID e.workflowID
    status :=
      match getStatusFromSearchAttributes e.searchAttr with
      | .ok s => s
      | .error _ => "unknown" }

/-- `handlers.handleListShipments`: page through `ListWorkflow` results,
appending one `ListShipmentEntry` per execution of every page to the
accumulated list. -/
def handleListShipments (pages : List (List ExecutionEntry)) : List ListShipmentEntry :=
  pages.foldl (fun acc page => acc ++ page.map listShipmentEntryOf) []

/-! ## Helper lemmas -/

/-- `waitForStatus` succeeds only by reaching the awaited status exactly:
the returned status equals the target, the target was the current status
or occurred among the consumed signals, and the remaining queue is a
subset of the delivered signals. -/
theorem waitForStatus_eq_target :
    ∀ (signals : List ShipmentStatus) (target st st' : ShipmentStatus)
      (rest : List ShipmentStatus),
      waitForStatus target st signals = some (st', rest) →
      st' = target ∧ (st = target ∨ target ∈ signals) ∧ rest ⊆ signals := by
  intro signals
  induction signals with
  | nil =>
    intro target st st' rest h
    by_cases hst : st = target
    · simp only [waitForStatus, if_pos hst, Option.some.injEq, Prod.mk.injEq] at h
      exact ⟨h.1 ▸ hst, Or.inl hst, h.2 ▸ List.Subset.refl _⟩
    · simp [waitForStatus, if_neg hst] at h
  | cons a l ih =>
    intro target st st' rest h
    by_cases hst : st = target
    · simp only [waitForStatus, if_pos hst, Option.some.injEq, Prod.mk.injEq] at h
      exact ⟨h.1 ▸ hst, Or.inl hst, h.2 ▸ List.Subset.refl _⟩
    · simp only [waitForStatus, if_neg hst] at h
      obtain ⟨h1, h2, h3⟩ := ih target (statusUpdaterStep st a) st' rest h
      refine ⟨h1, Or.inr ?_, fun x hx => List.mem_cons_of_mem a (h3 hx)⟩
      rcases h2 with h2 | h2
      · exact h2 ▸ List.mem_cons_self a l
      · exact List.mem_cons_of_mem a h2

/-! ## C1 — shipment status monotonicity -/

/-- C1 counterexample: `statusUpdater` assigns the signalled status
unconditionally, so a `booked` signal received while the status is
`dispatched` changes the status to `booked`, which is strictly behind —
the claim that such a signal is a no-op and that the status field never
regresses fails. On the spec's own signal sequence
`[booked, booked, dispatched, booked, delivered]` the intermediate status
history is `[booked, booked, booked, dispatched, booked, delivered]`,
with a regression (`dispatched` then `booked`) visible to a query after
the fourth signal. -/
theorem C1_counterexample :
    statusUpdaterStep ShipmentStatus.dispatched ShipmentStatus.booked =
      ShipmentStatus.booked ∧
    ShipmentStatus.booked ≠ ShipmentStatus.dispatched ∧
    statusNat (statusUpdaterStep ShipmentStatus.dispatched ShipmentStatus.booked) <
      statusNat ShipmentStatus.dispatched ∧
    statusHistory ShipmentStatus.booked
        [ShipmentStatus.booked, ShipmentStatus.booked, ShipmentStatus.dispatched,
         ShipmentStatus.booked, ShipmentStatus.delivered] =
      [ShipmentStatus.booked, ShipmentStatus.booked, ShipmentStatus.booked,
       ShipmentStatus.dispatched, ShipmentStatus.booked, ShipmentStatus.delivered] := by
  refine ⟨rfl, by decide, by decide, rfl⟩

/-- C1 (amended): every carrier-update signal overwrites the status field
with the signalled status unconditionally, so the field after a sequence
of signals is the last signal delivered (or the initial status if none).
A signal equal to the current status is therefore a no-op, but a signal
behind the current status regresses the field; the spec's sequence
`[booked, booked, dispatched, booked, delivered]` still yields final
status `delivered`. -/
theorem C1_statusUpdater_overwrites :
    (∀ (current signal : ShipmentStatus), statusUpdaterStep current signal = signal) ∧
    (∀ (current : ShipmentStatus), statusUpdaterStep current current = current) ∧
    (∀ (init : ShipmentStatus) (signals : List ShipmentStatus),
      statusUpdaterRun init signals = signals.getLastD init) ∧
    statusUpdaterRun ShipmentStatus.booked
      [ShipmentStatus.booked, ShipmentStatus.booked, ShipmentStatus.dispatched,
       ShipmentStatus.booked, ShipmentStatus.delivered] = ShipmentStatus.delivered := by
  refine ⟨fun _ _ => rfl, fun _ => rfl, ?_, rfl⟩
  intro init signals
  induction signals generalizing init with
  | nil => rfl
  | cons a l ih =>
    rw [List.getLastD_cons]
    exact ih a

/-! ## C2 — skip-ahead carrier updates -/

/-- C2: evaluating the shipment workflow at the failing input. With every
activity succeeding, a single carrier-update signal carrying `delivered`
while the process waits for `dispatched` sets the status field directly
to `delivered`, but `waitForStatus` tests `s.status == status`, so the
run stays suspended at the wait-for-`dispatched` point forever instead of
proceeding to completion. -/
theorem C2_skip_ahead_blocks :
    shipmentRun (.ok ()) (.ok ()) (.ok ()) (.ok ()) [ShipmentStatus.delivered] =
      ([ShipmentEvent.book, ShipmentEvent.bookedNotif],
        RunOutcome.blockedAwait ShipmentStatus.dispatched) ∧
    statusUpdaterRun ShipmentStatus.booked [ShipmentStatus.delivered] =
      ShipmentStatus.delivered ∧
    RunOutcome.isCompleted (RunOutcome.blockedAwait ShipmentStatus.dispatched) = false :=
  ⟨rfl, rfl, rfl⟩

/-! ## C4 — shipment workflow sequence -/

/-- C4: every successful run of the Shipment workflow performs exactly the
sequence book-shipment, booked notification, wait for `dispatched`,
dispatched notification, wait for `delivered`, delivered notification,
with all four activities succeeding, and returns the `ShipmentResult`
(whose `CourierReference` is the zero value, never assigned by the
workflow); and a booking failure is fatal: the error is propagated and
nothing after the booking side effect runs. -/
theorem C4_run_sequence :
    (∀ (bookRes bookedRes dispatchedRes deliveredRes : Except String Unit)
        (signals : List ShipmentStatus) (trace : List ShipmentEvent) (r : ShipmentResult),
      shipmentRun bookRes bookedRes dispatchedRes deliveredRes signals =
          (trace, .completed r) →
      trace = [.book, .bookedNotif, .dispatchedNotif, .deliveredNotif] ∧
      r = { courierReference := "" } ∧
      bookRes = .ok () ∧ bookedRes = .ok () ∧
      dispatchedRes = .ok () ∧ deliveredRes = .ok ()) ∧
    (∀ (bookedRes dispatchedRes deliveredRes : Except String Unit)
        (signals : List ShipmentStatus) (e : String),
      shipmentRun (.error e) bookedRes dispatchedRes deliveredRes signals =
        ([.book], .failed e)) := by
  constructor
  · intro bookRes bookedRes dispatchedRes deliveredRes signals trace r h
    unfold shipmentRun at h
    cases bookRes with
    | error e => simp at h
    | ok u =>
      cases bookedRes with
      | error e => simp at h
      | ok u2 =>
        cases hw1 : waitForStatus ShipmentStatus.dispatched ShipmentStatus.booked signals with
        | none => rw [hw1] at h; simp at h
        | some p1 =>
          obtain ⟨st1, rest1⟩ := p1
          rw [hw1] at h
          dsimp only at h
          cases dispatchedRes with
          | error e => simp at h
          | ok u3 =>
            cases hw2 : waitForStatus ShipmentStatus.delivered st1 rest1 with
            | none => rw [hw2] at h; simp at h
            | some p2 =>
              rw [hw2] at h
              dsimp only at h
              cases deliveredRes with
              | error e => simp at h
              | ok u4 =>
                simp only [Prod.mk.injEq, RunOutcome.completed.injEq] at h
                exact ⟨h.1.symm, h.2.symm, rfl, rfl, rfl, rfl⟩
  · intro bookedRes dispatchedRes deliveredRes signals e
    rfl

/-- C4 witness: a concrete successful run (all activities succeed, carrier
signals `[dispatched, delivered]`) with the sequence and result the
theorem predicts. -/
theorem C4_witness :
    shipmentRun (.ok ()) (.ok ()) (.ok ()) (.ok ())
        [ShipmentStatus.dispatched, ShipmentStatus.delivered] =
      ([ShipmentEvent.book, ShipmentEvent.bookedNotif, ShipmentEvent.dispatchedNotif,
        ShipmentEvent.deliveredNotif],
        RunOutcome.completed { courierReference := "" }) ∧
    ([ShipmentEvent.book, ShipmentEvent.bookedNotif, ShipmentEvent.dispatchedNotif,
        ShipmentEvent.deliveredNotif] =
      [ShipmentEvent.book, ShipmentEvent.bookedNotif, ShipmentEvent.dispatchedNotif,
        ShipmentEvent.deliveredNotif] ∧
      ({ courierReference := "" } : ShipmentResult) = { courierReference := "" } ∧
      (Except.ok () : Except String Unit) = .ok () ∧
      (Except.ok () : Except String Unit) = .ok () ∧
      (Except.ok () : Except String Unit) = .ok () ∧
      (Except.ok () : Except String Unit) = .ok ()) :=
  ⟨rfl, C4_run_sequence.1 (.ok ()) (.ok ()) (.ok ()) (.ok ())
    [ShipmentStatus.dispatched, ShipmentStatus.delivered] _ _ rfl⟩

/-! ## C3 — invoice running-total policy -/

/-- Rewrapping a wrapped left summand does not change the wrapped sum. -/
theorem wrap32_add_left (a b : Int) : wrap32 (wrap32 a + b) = wrap32 (a + b) := by
  unfold wrap32
  omega

/-- Rewrapping a wrapped right summand does not change the wrapped sum. -/
theorem wrap32_add_right (a b : Int) : wrap32 (a + wrap32 b) = wrap32 (a + b) := by
  unfold wrap32
  omega

/-- One pricing-loop iteration increments `Total` by the just-updated
running `SubTotal`, `Tax` and `Shipping` values (as one wrapped `int32`
sum). -/
theorem invoiceStep_total (r : GenerateInvoiceResult) (p : Pricing) :
    (invoiceStep r p).total = wrap32 (r.total + lineOf (invoiceStep r p)) := by
  simp only [invoiceStep, lineOf]
  rw [wrap32_add_left, wrap32_add_right, add_assoc]

/-- Folding the pricing loop from an accumulator whose `Total` is the wrap
of `t` yields a `Total` that is the wrap of `t` plus the per-step line
contributions. -/
theorem foldl_invoiceStep_total :
    ∀ (ps : List Pricing) (r : GenerateInvoiceResult) (t : Int),
      r.total = wrap32 t →
      (ps.foldl invoiceStep r).total =
        wrap32 (t + ((invoiceStates r ps).map lineOf).sum) := by
  intro ps
  induction ps with
  | nil =>
    intro r t ht
    simpa [invoiceStates] using ht
  | cons p ps ih =>
    intro r t ht
    have hstep : (invoiceStep r p).total = wrap32 (t + lineOf (invoiceStep r p)) := by
      rw [invoiceStep_total, ht, wrap32_add_left]
    have := ih (invoiceStep r p) (t + lineOf (invoiceStep r p)) hstep
    simp only [List.foldl_cons, invoiceStates, List.map_cons, List.sum_cons]
    rw [this]
    ring_nf

/-- C3: for every non-empty item list with per-item pricing,
`GenerateInvoice` computes the final `Total` by the running-total policy:
the `Total` is the (int32-wrapped) sum, over the loop steps, of the
running `SubTotal + Tax + Shipping` values as they stand at each step —
each item's contribution is added as it is priced and includes everything
accumulated so far — and each step satisfies the running recurrence
`Total' = wrap32 (Total + (SubTotal' + Tax' + Shipping'))` on the
just-updated fields. -/
theorem C3_running_total :
    ∀ (price : Nat → Pricing) (input : GenerateInvoiceInput) (r : GenerateInvoiceResult),
      GenerateInvoice price input = .ok r →
      r.total = wrap32 (((invoiceStates (initialInvoice input.reference)
          (pricedItems price input.items.length)).map lineOf).sum) ∧
      (∀ (s : GenerateInvoiceResult) (p : Pricing),
        (invoiceStep s p).total = wrap32 (s.total + lineOf (invoiceStep s p))) := by
  intro price input r h
  refine ⟨?_, fun s p => invoiceStep_total s p⟩
  unfold GenerateInvoice at h
  split_ifs at h
  simp only [Except.ok.injEq] at h
  subst h
  have h0 : (initialInvoice input.reference).total = wrap32 0 := by
    simp [initialInvoice, wrap32]
  have := foldl_invoiceStep_total (pricedItems price input.items.length)
    (initialInvoice input.reference) 0 h0
  rw [this, zero_add]

/-- C3 witness: the spec's example pricing — two items priced
`(cost 100, tax 20, shipping 10)` and `(cost 200, tax 40, shipping 20)` —
yields `SubTotal 300, Tax 60, Shipping 30` and running-total
`Total = 130 + 390 = 520` (not the single final sum `390`). -/
theorem C3_witness :
    GenerateInvoice
        (fun i => if i = 0 then { cost := 100, tax := 20, shipping := 10 }
          else { cost := 200, tax := 40, shipping := 20 })
        { customerID := "customer123", reference := "order123",
          items := [{ sku := "Adidas Classic", quantity := 1 },
                    { sku := "Nike Air", quantity := 2 }] } =
      .ok { invoiceReference := "order123", subTotal := 300, tax := 60,
            shipping := 30, total := 520 } ∧
    (({ invoiceReference := "order123", subTotal := 300, tax := 60,
        shipping := 30, total := 520 } : GenerateInvoiceResult).total =
      wrap32 (((invoiceStates (initialInvoice "order123")
          (pricedItems
            (fun i => if i = 0 then { cost := 100, tax := 20, shipping := 10 }
              else { cost := 200, tax := 40, shipping := 20 })
            ([{ sku := "Adidas Classic", quantity := 1 },
              { sku := "Nike Air", quantity := 2 }] : List Item).length)).map lineOf).sum) ∧
      (∀ (s : GenerateInvoiceResult) (p : Pricing),
        (invoiceStep s p).total = wrap32 (s.total + lineOf (invoiceStep s p)))) :=
  ⟨rfl,
    C3_running_total
      (fun i => if i = 0 then { cost := 100, tax := 20, shipping := 10 }
        else { cost := 200, tax := 40, shipping := 20 })
      { customerID := "customer123", reference := "order123",
        items := [{ sku := "Adidas Classic", quantity := 1 },
                  { sku := "Nike Air", quantity := 2 }] }
      { invoiceReference := "order123", subTotal := 300, tax := 60,
        shipping := 30, total := 520 }
      rfl⟩

/-! ## C5 — fulfillment partition -/

/-- C5: the fulfillment partition is total and non-overlapping — the
concatenation of the items of all fulfillments, in order, equals the
order's item list exactly (no duplication, no omission) — and zero items
yield zero fulfillments. The model is anchored to the repository's
`TestFulfillOrderZeroItems` and `TestFulfillOrderTwoItems` expectations. -/
theorem C5_partition :
    (∀ (items : List Item),
      ((FulfillOrder items).fulfillments.map Fulfillment.items).flatten = items) ∧
    (FulfillOrder []).fulfillments = [] ∧
    FulfillOrder [{ sku := "Hiking Boots", quantity := 2 },
        { sku := "Tennis Shoes", quantity := 1 }] =
      { fulfillments :=
          [{ location := "Warehouse A", items := [{ sku := "Hiking Boots", quantity := 2 }] },
           { location := "Warehouse B",
             items := [{ sku := "Tennis Shoes", quantity := 1 }] }] } := by
  refine ⟨?_, rfl, rfl⟩
  intro items
  match items with
  | [] => rfl
  | [x] => rfl
  | x :: y :: rest => simp [FulfillOrder]

/-! ## C6 — invoice validation -/

/-- C6: `GenerateInvoice` returns a result exactly when `CustomerID`,
`Reference` and the item list are all non-empty; it fails with a
validation error exactly when one of them is empty. -/
theorem C6_validation :
    ∀ (price : Nat → Pricing) (input : GenerateInvoiceInput),
      exceptOk (GenerateInvoice price input) = true ↔
        (input.customerID ≠ "" ∧ input.reference ≠ "" ∧ input.items ≠ []) := by
  intro price input
  unfold GenerateInvoice
  split_ifs with h1 h2 h3 <;>
    simp_all [exceptOk, List.length_eq_zero]

/-! ## C7 — fraud-check decline -/

/-- C7: in the `Charge` workflow the fraud check is invoked with the
customer ID and a charge equal to the invoice `Total`; when that
collaborator reports declined, `ChargeCustomer` (and hence `Charge`)
returns normally — no error — with `Success = false`. -/
theorem C7_fraud_decline :
    ∀ (price : Nat → Pricing) (fraudCheckURL : String)
      (remote : FraudCheckInput → Except String FraudCheckResult)
      (input : ChargeInput) (invoice : GenerateInvoiceResult),
      fraudCheckURL ≠ "" →
      GenerateInvoice price
          { customerID := input.customerID, reference := input.reference,
            items := input.items } = .ok invoice →
      remote { customerID := input.customerID, charge := invoice.total } =
        .ok { declined := true } →
      Charge price fraudCheckURL remote input =
        .ok { invoiceReference := invoice.invoiceReference,
              subTotal := invoice.subTotal, tax := invoice.tax,
              shipping := invoice.shipping, total := invoice.total,
              success := false, authCode := "1234" } := by
  intro price fraudCheckURL remote input invoice hurl hinv hremote
  unfold Charge
  rw [hinv]
  dsimp only
  unfold ChargeCustomer fraudCheck
  dsimp only
  rw [if_neg hurl, hremote]
  rfl

/-- C7 witness: a concrete declined charge — one item priced
`(100, 20, 10)`, invoice total `130`, a remote fraud check that declines
`{CustomerID := "customer123", Charge := 130}` — produces a successful
(`.ok`) result with `Success = false`. -/
theorem C7_witness :
    (("http://fraud" : String) ≠ "" ∧
      GenerateInvoice (fun _ => { cost := 100, tax := 20, shipping := 10 })
          { customerID := "customer123", reference := "order123",
            items := [{ sku := "Adidas Classic", quantity := 1 }] } =
        .ok { invoiceReference := "order123", subTotal := 100, tax := 20,
              shipping := 10, total := 130 } ∧
      (fun (_ : FraudCheckInput) =>
          (.ok { declined := true } : Except String FraudCheckResult))
          { customerID := "customer123", charge := 130 } =
        .ok { declined := true }) ∧
    Charge (fun _ => { cost := 100, tax := 20, shipping := 10 }) "http://fraud"
        (fun _ => .ok { declined := true })
        { customerID := "customer123", reference := "order123",
          items := [{ sku := "Adidas Classic", quantity := 1 }] } =
      .ok { invoiceReference := "order123", subTotal := 100, tax := 20,
            shipping := 10, total := 130, success := false, authCode := "1234" } :=
  ⟨⟨by decide, rfl, rfl⟩,
    C7_fraud_decline (fun _ => { cost := 100, tax := 20, shipping := 10 })
      "http://fraud" (fun _ => .ok { declined := true })
      { customerID := "customer123", reference := "order123",
        items := [{ sku := "Adidas Classic", quantity := 1 }] }
      { invoiceReference := "order123", subTotal := 100, tax := 20,
        shipping := 10, total := 130 }
      (by decide) rfl rfl⟩

/-! ## C10 — fixed authorization code -/

/-- C10: every `ChargeCustomer` result carries the fixed, non-empty
authorization code `"1234"` — in particular a declined fraud check still
yields `.ok { success := false, authCode := "1234" }`. -/
theorem C10_authCode :
    (∀ (fraudCheckURL : String)
        (remote : FraudCheckInput → Except String FraudCheckResult)
        (input : ChargeCustomerInput) (r : ChargeCustomerResult),
      ChargeCustomer fraudCheckURL remote input = .ok r →
      r.authCode = "1234" ∧ r.authCode ≠ "") ∧
    (∀ (fraudCheckURL : String)
        (remote : FraudCheckInput → Except String FraudCheckResult)
        (input : ChargeCustomerInput),
      fraudCheck fraudCheckURL remote input = .ok { declined := true } →
      ChargeCustomer fraudCheckURL remote input =
        .ok { success := false, authCode := "1234" }) := by
  constructor
  · intro fraudCheckURL remote input r h
    unfold ChargeCustomer at h
    cases hfc : fraudCheck fraudCheckURL remote input with
    | error e => rw [hfc] at h; simp at h
    | ok check =>
      rw [hfc] at h
      simp only [Except.ok.injEq] at h
      subst h
      refine ⟨rfl, ?_⟩
      dsimp only
      decide
  · intro fraudCheckURL remote input h
    unfold ChargeCustomer
    rw [h]
    rfl

/-- C10 witness: a declined fraud check (remote always declines) yields
`.ok { success := false, authCode := "1234" }`, whose auth code is the
non-empty `"1234"`. -/
theorem C10_witness :
    (ChargeCustomer "http://fraud" (fun _ => .ok { declined := true })
        { customerID := "customer123", reference := "order123", charge := 130 } =
      .ok { success := false, authCode := "1234" } ∧
      (({ success := false, authCode := "1234" } : ChargeCustomerResult).authCode = "1234" ∧
        ({ success := false, authCode := "1234" } : ChargeCustomerResult).authCode ≠ "")) ∧
    (fraudCheck "http://fraud" (fun _ => .ok { declined := true })
        { customerID := "customer123", reference := "order123", charge := 130 } =
      .ok { declined := true } ∧
      ChargeCustomer "http://fraud" (fun _ => .ok { declined := true })
          { customerID := "customer123", reference := "order123", charge := 130 } =
        .ok { success := false, authCode := "1234" }) :=
  ⟨⟨rfl, C10_authCode.1 "http://fraud" (fun _ => .ok { declined := true })
      { customerID := "customer123", reference := "order123", charge := 130 }
      { success := false, authCode := "1234" } rfl⟩,
    ⟨rfl, C10_authCode.2 "http://fraud" (fun _ => .ok { declined := true })
      { customerID := "customer123", reference := "order123", charge := 130 } rfl⟩⟩

/-! ## C8 — API error categories -/

/-- C8 counterexample: on the carrier-update signal endpoint, a signal
failure other than `NotFound` (an internal/side-effect failure) is
surfaced with HTTP status 400 (`http.StatusBadRequest`), not the
500-equivalent the claim requires. -/
theorem C8_counterexample :
    handleUpdateShipmentStatus (.ok { status := "dispatched" })
        (.error (.generic "internal failure")) = 400 ∧
    (400 : Nat) ≠ 500 :=
  ⟨rfl, by decide⟩

/-- C8 (amended): targeting a non-existent shipment yields the distinct
404 status on both the query and the carrier-update signal endpoints,
never a generic internal error; on the query endpoint every other
failure (query failure, result decoding, encoding) is surfaced as 500,
but on the signal endpoint a non-`NotFound` signal failure is surfaced
as 400. -/
theorem C8_error_codes :
    (∀ (g : Except String ShipmentStatusView) (enc : Bool),
      handleGetShipment (.error .notFound) g enc = 404) ∧
    (∀ (msg : String) (g : Except String ShipmentStatusView) (enc : Bool),
      handleGetShipment (.error (.generic msg)) g enc = 500) ∧
    (∀ (msg : String) (enc : Bool),
      handleGetShipment (.ok ()) (.error msg) enc = 500) ∧
    (∀ (view : ShipmentStatusView),
      handleGetShipment (.ok ()) (.ok view) false = 500) ∧
    (∀ (sig : ShipmentCarrierUpdateSignal),
      handleUpdateShipmentStatus (.ok sig) (.error .notFound) = 404) ∧
    (∀ (sig : ShipmentCarrierUpdateSignal) (msg : String),
      handleUpdateShipmentStatus (.ok sig) (.error (.generic msg)) = 400) ∧
    (404 : Nat) ≠ 500 :=
  ⟨fun _ _ => rfl, fun _ _ _ => rfl, fun _ _ => rfl, fun _ => rfl,
    fun _ => rfl, fun _ _ => rfl, by decide⟩

/-! ## C9 — listing resilience -/

/-- Paging through `ListWorkflow` results appends exactly one entry per
enumerated execution, in order. -/
theorem handleListShipments_flatten :
    ∀ (pages : List (List ExecutionEntry)) (acc : List ListShipmentEntry),
      pages.foldl (fun a page => a ++ page.map listShipmentEntryOf) acc =
        acc ++ pages.flatten.map listShipmentEntryOf := by
  intro pages
  induction pages with
  | nil => intro acc; simp
  | cons p ps ih =>
    intro acc
    simp [ih, List.append_assoc]

/-- C9: every successfully enumerated shipment appears in the listing —
the result is exactly one entry per execution across all pages — and a
per-entry status-projection failure (a search attribute that fails to
decode, or an absent one) yields the status `"unknown"` for that entry
instead of aborting the listing. -/
theorem C9_listing :
    ∀ (pages : List (List ExecutionEntry)),
      handleListShipments pages = pages.flatten.map listShipmentEntryOf ∧
      (handleListShipments pages).length = pages.flatten.length ∧
      (∀ (id msg : String),
        (listShipmentEntryOf { workflowID := id, searchAttr := some (.error msg) }).status
          = "unknown") ∧
      (∀ (id : String),
        (listShipmentEntryOf { workflowID := id, searchAttr := none }).status
          = "unknown") := by
  intro pages
  have h : handleListShipments pages = pages.flatten.map listShipmentEntryOf := by
    unfold handleListShipments
    simpa using handleListShipments_flatten pages []
  refine ⟨h, ?_, fun _ _ => rfl, fun _ => rfl⟩
  rw [h, List.length_map]

end OrdersApp
